import Mathlib

/-!
Shallow embedding of the rental-property tax modelling calculation engine.

Money amounts and rates are modelled as rationals (the source works on
floating-point numbers; the arithmetic structure is identical and exact
over ℚ).  Loan terms in years are modelled as integers, matching the data
model's `loanTermYears (1-40 integer)` constraint.

Sources embedded:
  - app/lib/constants.ts                    (WEEKS_PER_YEAR, CAPITAL_WORKS_RATE)
  - app/lib/types.ts                        (input / result record types)
  - app/lib/calculations/tax-calculations.ts
  - rental / cashflow calculations module
  - depreciation calculations module
  - loan calculations module (repayments, comparison, amortization milestones)
-/

/-- Constant from app/lib/constants.ts: weeks per year. -/
def WEEKS_PER_YEAR : ℚ := 52

/-- Constant from app/lib/constants.ts: Division 43 capital works rate (2.5% p.a.). -/
def CAPITAL_WORKS_RATE : ℚ := 0.025

/-- Rental income details (types.ts `RentalIncomeInputs`). -/
structure RentalIncomeInputs where
  weeklyRent : ℚ
  vacancyWeeksPerYear : ℚ

/-- Annual operating expenses (types.ts `OperatingExpensesInputs`). -/
structure OperatingExpensesInputs where
  propertyManagement : ℚ
  councilRates : ℚ
  waterRates : ℚ
  insurance : ℚ
  repairsMaintenance : ℚ
  bodyCorporate : ℚ
  otherExpenses : ℚ
  otherExpensesDescription : String

/-- Depreciation inputs (types.ts `DepreciationInputs`). -/
structure DepreciationInputs where
  constructionValue : ℚ
  plantEquipmentAnnual : ℚ

/-- Rental cashflow calculation results (types.ts `CashflowResults`). -/
structure CashflowResults where
  grossRentalIncome : ℚ
  totalOperatingExpenses : ℚ
  interestExpense : ℚ
  netCashflowPreTax : ℚ

/-- Depreciation calculation results (types.ts `DepreciationResults`). -/
structure DepreciationResults where
  capitalWorksDeduction : ℚ
  plantEquipmentDeduction : ℚ
  totalDepreciation : ℚ

/-- Rental profit and loss results (types.ts `RentalPLResults`). -/
structure RentalPLResults where
  netCashflowPreTax : ℚ
  totalDepreciation : ℚ
  netRentalResult : ℚ
  isNegativelyGeared : Bool

/-- Tax calculation for a single scenario (types.ts `TaxScenarioResults`). -/
structure TaxScenarioResults where
  taxableIncome : ℚ
  incomeTax : ℚ
  medicareLevy : ℚ
  totalTax : ℚ

/-- Tax impact comparison between scenarios (types.ts `TaxImpactResults`). -/
structure TaxImpactResults where
  withoutProperty : TaxScenarioResults
  withProperty : TaxScenarioResults
  taxBenefit : ℚ
  afterTaxCashflow : ℚ

/-- tax-calculations.ts `calculateIncomeTax`: flat marginal rate on
income floored at zero. -/
def calculateIncomeTax (taxableIncome marginalTaxRate : ℚ) : ℚ :=
  max 0 taxableIncome * marginalTaxRate

/-- tax-calculations.ts `calculateMedicareLevy`. -/
def calculateMedicareLevy (taxableIncome medicareLevyRate : ℚ) : ℚ :=
  max 0 taxableIncome * medicareLevyRate

/-- tax-calculations.ts `calculateTotalTax`. -/
def calculateTotalTax (incomeTax medicareLevy : ℚ) : ℚ :=
  incomeTax + medicareLevy

/-- tax-calculations.ts `calculateNetRentalResult`. -/
def calculateNetRentalResult (netCashflowPreTax totalDepreciation : ℚ) : ℚ :=
  netCashflowPreTax - totalDepreciation

/-- tax-calculations.ts `calculateTaxBenefit`. -/
def calculateTaxBenefit (taxWithoutProperty taxWithProperty : ℚ) : ℚ :=
  taxWithoutProperty - taxWithProperty

/-- tax-calculations.ts `calculateTaxScenario`. -/
def calculateTaxScenario (taxableIncome marginalTaxRate medicareLevyRate : ℚ) :
    TaxScenarioResults :=
  { taxableIncome := taxableIncome
    incomeTax := calculateIncomeTax taxableIncome marginalTaxRate
    medicareLevy := calculateMedicareLevy taxableIncome medicareLevyRate
    totalTax := calculateTotalTax (calculateIncomeTax taxableIncome marginalTaxRate)
      (calculateMedicareLevy taxableIncome medicareLevyRate) }

/-- tax-calculations.ts `calculateRentalPLResults`. -/
def calculateRentalPLResults (cashflow : CashflowResults)
    (depreciation : DepreciationResults) : RentalPLResults :=
  { netCashflowPreTax := cashflow.netCashflowPreTax
    totalDepreciation := depreciation.totalDepreciation
    netRentalResult :=
      calculateNetRentalResult cashflow.netCashflowPreTax depreciation.totalDepreciation
    isNegativelyGeared :=
      decide (calculateNetRentalResult cashflow.netCashflowPreTax
        depreciation.totalDepreciation < 0) }

/-- tax-calculations.ts `calculateTaxImpactResults`: two-scenario comparison. -/
def calculateTaxImpactResults (baseTaxableIncome netRentalResult netCashflowPreTax
    marginalTaxRate medicareLevyRate : ℚ) : TaxImpactResults :=
  { withoutProperty := calculateTaxScenario baseTaxableIncome marginalTaxRate medicareLevyRate
    withProperty :=
      calculateTaxScenario (baseTaxableIncome + netRentalResult) marginalTaxRate medicareLevyRate
    taxBenefit :=
      calculateTaxBenefit
        (calculateTaxScenario baseTaxableIncome marginalTaxRate medicareLevyRate).totalTax
        (calculateTaxScenario (baseTaxableIncome + netRentalResult) marginalTaxRate
          medicareLevyRate).totalTax
    afterTaxCashflow :=
      netCashflowPreTax +
        calculateTaxBenefit
          (calculateTaxScenario baseTaxableIncome marginalTaxRate medicareLevyRate).totalTax
          (calculateTaxScenario (baseTaxableIncome + netRentalResult) marginalTaxRate
            medicareLevyRate).totalTax }

/-- rental calculations `calculateGrossRent`:
(52 - vacancyWeeks) * weeklyRent * ownershipPct. -/
def calculateGrossRent (weeklyRent vacancyWeeks ownershipPct : ℚ) : ℚ :=
  (WEEKS_PER_YEAR - vacancyWeeks) * weeklyRent * ownershipPct

/-- rental calculations `calculateInterestExpense`. -/
def calculateInterestExpense (loanAmount interestRate ownershipPct : ℚ) : ℚ :=
  loanAmount * interestRate * ownershipPct

/-- rental calculations `calculateTotalOperatingExpenses`: sum of the seven
expense line items, scaled by ownership. -/
def calculateTotalOperatingExpenses (expenses : OperatingExpensesInputs)
    (ownershipPct : ℚ) : ℚ :=
  (expenses.propertyManagement + expenses.councilRates + expenses.waterRates +
    expenses.insurance + expenses.repairsMaintenance + expenses.bodyCorporate +
    expenses.otherExpenses) * ownershipPct

/-- rental calculations `calculateNetCashflowPreTax`. -/
def calculateNetCashflowPreTax (grossRent totalExpenses interestExpense : ℚ) : ℚ :=
  grossRent - totalExpenses - interestExpense

/-- rental calculations `calculateCashflowResults`. -/
def calculateCashflowResults (rentalIncome : RentalIncomeInputs)
    (operatingExpenses : OperatingExpensesInputs) (loanAmount interestRate ownershipPct : ℚ) :
    CashflowResults :=
  { grossRentalIncome :=
      calculateGrossRent rentalIncome.weeklyRent rentalIncome.vacancyWeeksPerYear ownershipPct
    totalOperatingExpenses := calculateTotalOperatingExpenses operatingExpenses ownershipPct
    interestExpense := calculateInterestExpense loanAmount interestRate ownershipPct
    netCashflowPreTax :=
      calculateNetCashflowPreTax
        (calculateGrossRent rentalIncome.weeklyRent rentalIncome.vacancyWeeksPerYear ownershipPct)
        (calculateTotalOperatingExpenses operatingExpenses ownershipPct)
        (calculateInterestExpense loanAmount interestRate ownershipPct) }

/-- depreciation calculations `calculateCapitalWorksDeduction`. -/
def calculateCapitalWorksDeduction (constructionValue ownershipPct : ℚ) : ℚ :=
  constructionValue * CAPITAL_WORKS_RATE * ownershipPct

/-- depreciation calculations `calculatePlantEquipmentDeduction`. -/
def calculatePlantEquipmentDeduction (annualEstimate ownershipPct : ℚ) : ℚ :=
  annualEstimate * ownershipPct

/-- depreciation calculations `calculateTotalDepreciation`. -/
def calculateTotalDepreciation (capitalWorks plantEquipment : ℚ) : ℚ :=
  capitalWorks + plantEquipment

/-- depreciation calculations `calculateDepreciationResults`. -/
def calculateDepreciationResults (depreciation : DepreciationInputs)
    (ownershipPct : ℚ) : DepreciationResults :=
  { capitalWorksDeduction :=
      calculateCapitalWorksDeduction depreciation.constructionValue ownershipPct
    plantEquipmentDeduction :=
      calculatePlantEquipmentDeduction depreciation.plantEquipmentAnnual ownershipPct
    totalDepreciation :=
      calculateTotalDepreciation
        (calculateCapitalWorksDeduction depreciation.constructionValue ownershipPct)
        (calculatePlantEquipmentDeduction depreciation.plantEquipmentAnnual ownershipPct) }

/-- loan calculations `calculateMonthlyPIRepayment`: standard amortization
formula M = P r(1+r)^n / ((1+r)^n - 1), with the degenerate branches of the
source (`loanAmount <= 0 or loanTermYears <= 0` gives 0; a non-positive rate
gives a straight-line repayment). -/
def calculateMonthlyPIRepayment (loanAmount annualInterestRate : ℚ)
    (loanTermYears : ℤ) : ℚ :=
  if loanAmount ≤ 0 ∨ loanTermYears ≤ 0 then 0
  else if annualInterestRate ≤ 0 then loanAmount / ((loanTermYears : ℚ) * 12)
  else
    loanAmount * (annualInterestRate / 12 *
        (1 + annualInterestRate / 12) ^ (loanTermYears * 12).toNat) /
      ((1 + annualInterestRate / 12) ^ (loanTermYears * 12).toNat - 1)

/-- loan calculations `calculateMonthlyIORepayment`. -/
def calculateMonthlyIORepayment (loanAmount annualInterestRate : ℚ) : ℚ :=
  if loanAmount ≤ 0 ∨ annualInterestRate ≤ 0 then 0
  else loanAmount * annualInterestRate / 12

/-- loan calculations `calculateTotalInterestPI`:
monthlyPayment * loanTermYears * 12 - loanAmount. -/
def calculateTotalInterestPI (loanAmount annualInterestRate : ℚ)
    (loanTermYears : ℤ) : ℚ :=
  calculateMonthlyPIRepayment loanAmount annualInterestRate loanTermYears *
      (loanTermYears : ℚ) * 12 - loanAmount

/-- loan calculations `calculateTotalInterestIO`:
loanAmount * annualInterestRate * years. -/
def calculateTotalInterestIO (loanAmount annualInterestRate : ℚ) (years : ℤ) : ℚ :=
  loanAmount * annualInterestRate * (years : ℚ)

/-- Loan comparison results (loan calculations `LoanComparisonResults`). -/
structure LoanComparisonResults where
  monthlyPI : ℚ
  annualPI : ℚ
  monthlyIO : ℚ
  annualIO : ℚ
  monthlySavingsIO : ℚ
  totalInterestPI : ℚ
  totalInterestIO : ℚ
  extraInterestIO : ℚ
  principalRemainingIO : ℚ

/-- loan calculations `calculateLoanComparison`. -/
def calculateLoanComparison (loanAmount annualInterestRate : ℚ)
    (loanTermYears : ℤ) : LoanComparisonResults :=
  { monthlyPI := calculateMonthlyPIRepayment loanAmount annualInterestRate loanTermYears
    annualPI := calculateMonthlyPIRepayment loanAmount annualInterestRate loanTermYears * 12
    monthlyIO := calculateMonthlyIORepayment loanAmount annualInterestRate
    annualIO := calculateMonthlyIORepayment loanAmount annualInterestRate * 12
    monthlySavingsIO :=
      calculateMonthlyPIRepayment loanAmount annualInterestRate loanTermYears -
        calculateMonthlyIORepayment loanAmount annualInterestRate
    totalInterestPI := calculateTotalInterestPI loanAmount annualInterestRate loanTermYears
    totalInterestIO := calculateTotalInterestIO loanAmount annualInterestRate loanTermYears
    extraInterestIO :=
      calculateTotalInterestIO loanAmount annualInterestRate loanTermYears -
        calculateTotalInterestPI loanAmount annualInterestRate loanTermYears
    principalRemainingIO := loanAmount }

/-- Amortization milestone record (loan calculations `AmortizationMilestone`). -/
structure AmortizationMilestone where
  year : ℕ
  principalPaid : ℚ
  interestPaid : ℚ
  remainingBalance : ℚ

/-- One pass of the loop body of `calculateAmortizationMilestones`: the monthly
state is (balance, totalPrincipalPaid, totalInterestPaid); each month pays
interest balance * monthlyRate and principal monthlyPayment minus that interest. -/
def amortStep (monthlyRate monthlyPayment : ℚ) (s : ℚ × ℚ × ℚ) : ℚ × ℚ × ℚ :=
  (s.1 - (monthlyPayment - s.1 * monthlyRate),
   s.2.1 + (monthlyPayment - s.1 * monthlyRate),
   s.2.2 + s.1 * monthlyRate)

/-- The month-by-month loop of `calculateAmortizationMilestones`.  The first
list argument is the still-unsnapshotted milestone years (the source keeps the
full list plus an index `currentMilestoneIndex`; dropping captured years from
the front is the same traversal, and the loop guard
`currentMilestoneIndex < milestoneYears.length` is the non-emptiness of this
list).  `fuel` is the number of months still within the loan term, so the loop
guard `month <= loanTermYears * 12` is `fuel > 0`. -/
def amortGo (monthlyRate monthlyPayment : ℚ) :
    List ℕ → ℕ → ℕ → ℚ → ℚ → ℚ → List AmortizationMilestone
  | [], _, _, _, _, _ => []
  | _ :: _, 0, _, _, _, _ => []
  | y :: ys, fuel + 1, month, balance, totalPrincipalPaid, totalInterestPaid =>
    if month = y * 12 then
      { year := y
        principalPaid := totalPrincipalPaid + (monthlyPayment - balance * monthlyRate)
        interestPaid := totalInterestPaid + balance * monthlyRate
        remainingBalance := max 0 (balance - (monthlyPayment - balance * monthlyRate)) } ::
        amortGo monthlyRate monthlyPayment ys fuel (month + 1)
          (balance - (monthlyPayment - balance * monthlyRate))
          (totalPrincipalPaid + (monthlyPayment - balance * monthlyRate))
          (totalInterestPaid + balance * monthlyRate)
    else
      amortGo monthlyRate monthlyPayment (y :: ys) fuel (month + 1)
        (balance - (monthlyPayment - balance * monthlyRate))
        (totalPrincipalPaid + (monthlyPayment - balance * monthlyRate))
        (totalInterestPaid + balance * monthlyRate)

/-- loan calculations `calculateAmortizationMilestones`: milestone years
{1,5,10,15,20,25,30} filtered to the loan term, snapshotted along a
month-by-month declining-balance walk. -/
def calculateAmortizationMilestones (loanAmount annualInterestRate : ℚ)
    (loanTermYears : ℤ) : List AmortizationMilestone :=
  if loanAmount ≤ 0 ∨ annualInterestRate ≤ 0 ∨ loanTermYears ≤ 0 then []
  else
    amortGo (annualInterestRate / 12)
      (calculateMonthlyPIRepayment loanAmount annualInterestRate loanTermYears)
      ([1, 5, 10, 15, 20, 25, 30].filter (fun y => decide ((y : ℤ) ≤ loanTermYears)))
      (loanTermYears * 12).toNat 1 loanAmount 0 0

/-- The loop state after `k` months, starting from balance `P` and zero
cumulative totals. -/
def stateAt (monthlyRate monthlyPayment P : ℚ) (k : ℕ) : ℚ × ℚ × ℚ :=
  (amortStep monthlyRate monthlyPayment)^[k] (P, 0, 0)

/-- The milestone record snapshotted at month `year * 12` of the walk. -/
def milestoneAt (monthlyRate monthlyPayment P : ℚ) (y : ℕ) : AmortizationMilestone :=
  { year := y
    principalPaid := (stateAt monthlyRate monthlyPayment P (y * 12)).2.1
    interestPaid := (stateAt monthlyRate monthlyPayment P (y * 12)).2.2
    remainingBalance := max 0 (stateAt monthlyRate monthlyPayment P (y * 12)).1 }

/-- The exact annuity payment P r (1+r)^n / ((1+r)^n - 1) (the positive-rate
branch of `calculateMonthlyPIRepayment`, with `r` already the monthly rate and
`n` the number of monthly payments). -/
def annuityPayment (r P : ℚ) (n : ℕ) : ℚ :=
  P * (r * (1 + r) ^ n) / ((1 + r) ^ n - 1)

theorem stateAt_succ (r M P : ℚ) (k : ℕ) :
    stateAt r M P (k + 1) = amortStep r M (stateAt r M P k) :=
  Function.iterate_succ_apply' _ _ _

theorem stateAt_principal (r M P : ℚ) (k : ℕ) :
    (stateAt r M P k).2.1 = P - (stateAt r M P k).1 := by
  induction k with
  | zero => simp [stateAt]
  | succ k ih =>
    rw [stateAt_succ]
    simp only [amortStep]
    rw [ih]
    ring

theorem stateAt_balance (r P : ℚ) (n : ℕ) (hf : (1 + r) ^ n - 1 ≠ 0) (k : ℕ) :
    (stateAt r (annuityPayment r P n) P k).1 =
      P * ((1 + r) ^ n - (1 + r) ^ k) / ((1 + r) ^ n - 1) := by
  induction k with
  | zero =>
    show P = P * ((1 + r) ^ n - 1) / ((1 + r) ^ n - 1)
    rw [mul_div_assoc, div_self hf, mul_one]
  | succ k ih =>
    rw [stateAt_succ]
    simp only [amortStep]
    rw [ih, annuityPayment]
    field_simp
    ring

theorem balance_nonneg (r P : ℚ) (n : ℕ) (hr : 0 < r) (hP : 0 < P)
    (hn : 1 < (1 + r) ^ n) {k : ℕ} (hk : k ≤ n) :
    0 ≤ (stateAt r (annuityPayment r P n) P k).1 := by
  rw [stateAt_balance r P n (by linarith)]
  apply div_nonneg _ (by linarith)
  exact mul_nonneg hP.le (sub_nonneg.mpr (pow_le_pow_right₀ (by linarith) hk))

theorem balance_strict_anti (r P : ℚ) (n : ℕ) (hr : 0 < r) (hP : 0 < P)
    (hn : 1 < (1 + r) ^ n) {k l : ℕ} (hkl : k < l) :
    (stateAt r (annuityPayment r P n) P l).1 <
      (stateAt r (annuityPayment r P n) P k).1 := by
  have hf : (1 + r) ^ n - 1 ≠ 0 := ne_of_gt (by linarith)
  rw [stateAt_balance r P n hf, stateAt_balance r P n hf]
  have hpow : (1 + r) ^ k < (1 + r) ^ l :=
    pow_lt_pow_right₀ (by linarith) hkl
  have hnum : P * ((1 + r) ^ n - (1 + r) ^ l) < P * ((1 + r) ^ n - (1 + r) ^ k) :=
    mul_lt_mul_of_pos_left (by linarith) hP
  exact (div_lt_div_iff_of_pos_right (by linarith)).mpr hnum

theorem amortGo_eq_map (r M P : ℚ) (fuel : ℕ) :
    ∀ (ys : List ℕ) (m0 : ℕ),
      List.Pairwise (· < ·) ys →
      (∀ y ∈ ys, m0 + 1 ≤ y * 12 ∧ y * 12 ≤ m0 + fuel) →
      amortGo r M ys fuel (m0 + 1) (stateAt r M P m0).1 (stateAt r M P m0).2.1
          (stateAt r M P m0).2.2 =
        ys.map (milestoneAt r M P) := by
  induction fuel with
  | zero =>
    intro ys m0 _ hb
    cases ys with
    | nil => rfl
    | cons y ys =>
      obtain ⟨h1, h2⟩ := hb y (List.mem_cons_self y ys)
      exact absurd h2 (by omega)
  | succ fuel ih =>
    intro ys m0 hp hb
    cases ys with
    | nil => rfl
    | cons y ys =>
      have e1 : (stateAt r M P m0).1 - (M - (stateAt r M P m0).1 * r) =
          (stateAt r M P (m0 + 1)).1 := by rw [stateAt_succ]; rfl
      have e2 : (stateAt r M P m0).2.1 + (M - (stateAt r M P m0).1 * r) =
          (stateAt r M P (m0 + 1)).2.1 := by rw [stateAt_succ]; rfl
      have e3 : (stateAt r M P m0).2.2 + (stateAt r M P m0).1 * r =
          (stateAt r M P (m0 + 1)).2.2 := by rw [stateAt_succ]; rfl
      by_cases hm : m0 + 1 = y * 12
      · rw [amortGo, if_pos hm, e1, e2, e3]
        congr 1
        · rw [milestoneAt, ← hm]
        · refine ih ys (m0 + 1) (List.pairwise_cons.mp hp).2 fun z hz => ?_
          have h1 := (List.pairwise_cons.mp hp).1 z hz
          have h2 := hb z (List.mem_cons_of_mem y hz)
          omega
      · rw [amortGo, if_neg hm, e1, e2, e3]
        refine ih (y :: ys) (m0 + 1) hp fun z hz => ?_
        have h2 := hb z hz
        rcases List.mem_cons.mp hz with h | h
        · subst h; omega
        · have h1 := (List.pairwise_cons.mp hp).1 z h
          have h3 := hb y (List.mem_cons_self y ys)
          omega

theorem milestone_year_bound (T : ℤ) (hT : 1 ≤ T) {y : ℕ}
    (hy : y ∈ [1, 5, 10, 15, 20, 25, 30].filter (fun (y : ℕ) => decide ((y : ℤ) ≤ T))) :
    1 ≤ y ∧ y * 12 ≤ (T * 12).toNat := by
  rw [List.mem_filter] at hy
  have hyT : (y : ℤ) ≤ T := of_decide_eq_true hy.2
  have h1 : 1 ≤ y := by
    have h := hy.1
    simp only [List.mem_cons, List.not_mem_nil, or_false] at h
    omega
  exact ⟨h1, by omega⟩

theorem monthlyPI_eq_annuity (P a : ℚ) (T : ℤ) (hP : 0 < P) (ha : 0 < a)
    (hT : 0 < T) :
    calculateMonthlyPIRepayment P a T = annuityPayment (a / 12) P (T * 12).toNat := by
  rw [calculateMonthlyPIRepayment, if_neg (by push_neg; exact ⟨hP, hT⟩),
    if_neg (not_le.mpr ha)]
  rfl

theorem amortization_eq_map (P a : ℚ) (T : ℤ) (hP : 0 < P) (ha : 0 < a)
    (hT : 1 ≤ T) :
    calculateAmortizationMilestones P a T =
      ([1, 5, 10, 15, 20, 25, 30].filter (fun (y : ℕ) => decide ((y : ℤ) ≤ T))).map
        (milestoneAt (a / 12) (calculateMonthlyPIRepayment P a T) P) := by
  rw [calculateAmortizationMilestones,
    if_neg (by push_neg; exact ⟨hP, ha, by omega⟩)]
  refine amortGo_eq_map (a / 12) (calculateMonthlyPIRepayment P a T) P
    (T * 12).toNat _ 0
    (List.Pairwise.sublist (List.filter_sublist _) (by decide)) fun y hy => ?_
  obtain ⟨h1, h2⟩ := milestone_year_bound T hT hy
  omega

/-- C1: calculateTaxImpactResults computes the without-property scenario at
baseTaxableIncome, the with-property scenario at the unfloored sum
baseTaxableIncome + netRentalResult, taxBenefit as the difference of the two
total taxes, and afterTaxCashflow = netCashflowPreTax + taxBenefit (on the
pre-tax cashflow); at baseTaxableIncome 100000, netRentalResult -20800,
netCashflowPreTax -8300, rates 0.37 and 0.02 it returns total tax without
39000, with-property taxable income 79200 and total tax 30888, taxBenefit
8112 and afterTaxCashflow -188. -/
theorem taxImpact_spec (baseTaxableIncome netRentalResult netCashflowPreTax
    marginalTaxRate medicareLevyRate : ℚ) :
    (calculateTaxImpactResults baseTaxableIncome netRentalResult netCashflowPreTax
        marginalTaxRate medicareLevyRate).withoutProperty =
      calculateTaxScenario baseTaxableIncome marginalTaxRate medicareLevyRate ∧
    (calculateTaxImpactResults baseTaxableIncome netRentalResult netCashflowPreTax
        marginalTaxRate medicareLevyRate).withProperty =
      calculateTaxScenario (baseTaxableIncome + netRentalResult) marginalTaxRate
        medicareLevyRate ∧
    (calculateTaxImpactResults baseTaxableIncome netRentalResult netCashflowPreTax
        marginalTaxRate medicareLevyRate).taxBenefit =
      (calculateTaxImpactResults baseTaxableIncome netRentalResult netCashflowPreTax
          marginalTaxRate medicareLevyRate).withoutProperty.totalTax -
        (calculateTaxImpactResults baseTaxableIncome netRentalResult netCashflowPreTax
            marginalTaxRate medicareLevyRate).withProperty.totalTax ∧
    (calculateTaxImpactResults baseTaxableIncome netRentalResult netCashflowPreTax
        marginalTaxRate medicareLevyRate).afterTaxCashflow =
      netCashflowPreTax +
        (calculateTaxImpactResults baseTaxableIncome netRentalResult netCashflowPreTax
            marginalTaxRate medicareLevyRate).taxBenefit ∧
    (calculateTaxImpactResults 100000 (-20800) (-8300) 0.37 0.02).withoutProperty.totalTax
        = 39000 ∧
    (calculateTaxImpactResults 100000 (-20800) (-8300) 0.37 0.02).withProperty.taxableIncome
        = 79200 ∧
    (calculateTaxImpactResults 100000 (-20800) (-8300) 0.37 0.02).withProperty.totalTax
        = 30888 ∧
    (calculateTaxImpactResults 100000 (-20800) (-8300) 0.37 0.02).taxBenefit = 8112 ∧
    (calculateTaxImpactResults 100000 (-20800) (-8300) 0.37 0.02).afterTaxCashflow
        = -188 := by
  refine ⟨rfl, rfl, rfl, rfl, ?_, ?_, ?_, ?_, ?_⟩ <;>
    norm_num [calculateTaxImpactResults, calculateTaxScenario, calculateIncomeTax,
      calculateMedicareLevy, calculateTotalTax, calculateTaxBenefit, max_def]

/-- C2: calculateIncomeTax is max(0, taxableIncome) times the marginal rate,
calculateMedicareLevy mirrors it with its own rate, both vanish on negative
taxable income, and calculateIncomeTax 100000 0.37 = 37000. -/
theorem incomeTax_spec (taxableIncome marginalTaxRate medicareLevyRate : ℚ) :
    calculateIncomeTax taxableIncome marginalTaxRate = max 0 taxableIncome * marginalTaxRate ∧
    calculateMedicareLevy taxableIncome medicareLevyRate =
      max 0 taxableIncome * medicareLevyRate ∧
    (taxableIncome < 0 →
      calculateIncomeTax taxableIncome marginalTaxRate = 0 ∧
        calculateMedicareLevy taxableIncome medicareLevyRate = 0) ∧
    calculateIncomeTax 100000 0.37 = 37000 := by
  refine ⟨rfl, rfl, fun h => ?_, by norm_num [calculateIncomeTax, max_def]⟩
  rw [calculateIncomeTax, calculateMedicareLevy, max_eq_left h.le]
  simp

/-- C2 witness at taxableIncome -5000. -/
theorem incomeTax_spec_witness :
    (-5000 : ℚ) < 0 ∧
      calculateIncomeTax (-5000) 0.37 = 0 ∧ calculateMedicareLevy (-5000) 0.02 = 0 :=
  ⟨by norm_num, (incomeTax_spec (-5000) 0.37 0.02).2.2.1 (by norm_num)⟩

/-- C5: calculateGrossRent is (52 - vacancyWeeks) * weeklyRent * ownershipPct
with no clamping (vacancyWeeks above 52 with positive rent and ownership gives
negative gross rent), and calculateCashflowResults returns netCashflowPreTax
as the unfloored difference grossRentalIncome - totalOperatingExpenses -
interestExpense (negative at the worked example). -/
theorem grossRent_cashflow_spec (weeklyRent vacancyWeeks ownershipPct : ℚ)
    (rentalIncome : RentalIncomeInputs) (operatingExpenses : OperatingExpensesInputs)
    (loanAmount interestRate pct : ℚ) :
    calculateGrossRent weeklyRent vacancyWeeks ownershipPct =
      (52 - vacancyWeeks) * weeklyRent * ownershipPct ∧
    (52 < vacancyWeeks → 0 < weeklyRent → 0 < ownershipPct →
      calculateGrossRent weeklyRent vacancyWeeks ownershipPct < 0) ∧
    (calculateCashflowResults rentalIncome operatingExpenses loanAmount interestRate
        pct).netCashflowPreTax =
      (calculateCashflowResults rentalIncome operatingExpenses loanAmount interestRate
          pct).grossRentalIncome -
        (calculateCashflowResults rentalIncome operatingExpenses loanAmount interestRate
            pct).totalOperatingExpenses -
        (calculateCashflowResults rentalIncome operatingExpenses loanAmount interestRate
            pct).interestExpense ∧
    (calculateCashflowResults ⟨550, 2⟩ ⟨1500, 1800, 900, 400, 800, 1000, 600, ""⟩
        480000 0.06 1).netCashflowPreTax = -8300 := by
  refine ⟨rfl, fun hv hw hp => ?_, rfl, by
    norm_num [calculateCashflowResults, calculateNetCashflowPreTax, calculateGrossRent,
      calculateTotalOperatingExpenses, calculateInterestExpense, WEEKS_PER_YEAR]⟩
  have h52 : WEEKS_PER_YEAR - vacancyWeeks < 0 := by
    rw [WEEKS_PER_YEAR]; linarith
  exact mul_neg_of_neg_of_pos (mul_neg_of_neg_of_pos h52 hw) hp

/-- C5 witness: vacancyWeeks 53 with positive rent and ownership yields a
negative gross rent. -/
theorem grossRent_cashflow_spec_witness :
    (52 : ℚ) < 53 ∧ (0 : ℚ) < 100 ∧ (0 : ℚ) < 1 ∧ calculateGrossRent 100 53 1 < 0 :=
  ⟨by norm_num, by norm_num, by norm_num,
    (grossRent_cashflow_spec 100 53 1 ⟨0, 0⟩ ⟨0, 0, 0, 0, 0, 0, 0, ""⟩ 0 0
        0).2.1 (by norm_num) (by norm_num) (by norm_num)⟩

/-- C6: calculateRentalPLResults copies netCashflowPreTax and
totalDepreciation unchanged, sets netRentalResult to their difference, and
sets isNegativelyGeared exactly when netRentalResult is negative (so false at
the zero boundary). -/
theorem rentalPL_spec (cashflow : CashflowResults) (depreciation : DepreciationResults) :
    (calculateRentalPLResults cashflow depreciation).netRentalResult =
      cashflow.netCashflowPreTax - depreciation.totalDepreciation ∧
    (calculateRentalPLResults cashflow depreciation).netCashflowPreTax =
      cashflow.netCashflowPreTax ∧
    (calculateRentalPLResults cashflow depreciation).totalDepreciation =
      depreciation.totalDepreciation ∧
    ((calculateRentalPLResults cashflow depreciation).isNegativelyGeared = true ↔
      (calculateRentalPLResults cashflow depreciation).netRentalResult < 0) ∧
    ((calculateRentalPLResults cashflow depreciation).netRentalResult = 0 →
      (calculateRentalPLResults cashflow depreciation).isNegativelyGeared = false) := by
  refine ⟨rfl, rfl, rfl, by simp [calculateRentalPLResults], fun h => ?_⟩
  simp only [calculateRentalPLResults] at h ⊢
  rw [h]
  simp

/-- C6 witness at the boundary netRentalResult = 0. -/
theorem rentalPL_spec_witness :
    (calculateRentalPLResults ⟨0, 0, 0, 5⟩ ⟨0, 0, 5⟩).netRentalResult = 0 ∧
      (calculateRentalPLResults ⟨0, 0, 0, 5⟩ ⟨0, 0, 5⟩).isNegativelyGeared = false := by
  have h : (calculateRentalPLResults ⟨0, 0, 0, 5⟩ ⟨0, 0, 5⟩).netRentalResult = 0 := by
    norm_num [calculateRentalPLResults, calculateNetRentalResult]
  exact ⟨h, (rentalPL_spec ⟨0, 0, 0, 5⟩ ⟨0, 0, 5⟩).2.2.2.2 h⟩

/-- C8: every calculator taking an ownershipPct parameter (gross rent, total
operating expenses, interest expense, capital works deduction, plant and
equipment deduction) scales linearly: result at ownership p in the unit
interval equals p times the result at full ownership. -/
theorem ownership_linearity (weeklyRent vacancyWeeks : ℚ)
    (expenses : OperatingExpensesInputs) (loanAmount interestRate : ℚ)
    (constructionValue annualEstimate p : ℚ) (hp0 : 0 ≤ p) (hp1 : p ≤ 1) :
    calculateGrossRent weeklyRent vacancyWeeks p =
      p * calculateGrossRent weeklyRent vacancyWeeks 1 ∧
    calculateTotalOperatingExpenses expenses p =
      p * calculateTotalOperatingExpenses expenses 1 ∧
    calculateInterestExpense loanAmount interestRate p =
      p * calculateInterestExpense loanAmount interestRate 1 ∧
    calculateCapitalWorksDeduction constructionValue p =
      p * calculateCapitalWorksDeduction constructionValue 1 ∧
    calculatePlantEquipmentDeduction annualEstimate p =
      p * calculatePlantEquipmentDeduction annualEstimate 1 := by
  refine ⟨?_, ?_, ?_, ?_, ?_⟩ <;>
    simp only [calculateGrossRent, calculateTotalOperatingExpenses,
      calculateInterestExpense, calculateCapitalWorksDeduction,
      calculatePlantEquipmentDeduction] <;> ring

/-- C8 witness at half ownership. -/
theorem ownership_linearity_witness :
    (0 : ℚ) ≤ 1 / 2 ∧ (1 / 2 : ℚ) ≤ 1 ∧
      calculateGrossRent 550 2 (1 / 2) = 1 / 2 * calculateGrossRent 550 2 1 :=
  ⟨by norm_num, by norm_num,
    (ownership_linearity 550 2 ⟨0, 0, 0, 0, 0, 0, 0, ""⟩ 480000 0.06 300000 5000
        (1 / 2) (by norm_num) (by norm_num)).1⟩

/-- C9: under non-negative tax rates the taxBenefit of
calculateTaxImpactResults has sign opposite to the net rental result: a
non-positive netRentalResult gives a non-negative benefit and a non-negative
netRentalResult gives a non-positive benefit. -/
theorem taxBenefit_sign (baseTaxableIncome netRentalResult netCashflowPreTax
    marginalTaxRate medicareLevyRate : ℚ)
    (hmt : 0 ≤ marginalTaxRate) (hml : 0 ≤ medicareLevyRate) :
    (netRentalResult ≤ 0 →
      0 ≤ (calculateTaxImpactResults baseTaxableIncome netRentalResult netCashflowPreTax
          marginalTaxRate medicareLevyRate).taxBenefit) ∧
    (0 ≤ netRentalResult →
      (calculateTaxImpactResults baseTaxableIncome netRentalResult netCashflowPreTax
          marginalTaxRate medicareLevyRate).taxBenefit ≤ 0) := by
  simp only [calculateTaxImpactResults, calculateTaxBenefit, calculateTaxScenario,
    calculateTotalTax, calculateIncomeTax, calculateMedicareLevy]
  constructor
  · intro h
    have hmax : max 0 (baseTaxableIncome + netRentalResult) ≤ max 0 baseTaxableIncome :=
      max_le_max le_rfl (by linarith)
    have h1 := mul_le_mul_of_nonneg_right hmax hmt
    have h2 := mul_le_mul_of_nonneg_right hmax hml
    linarith
  · intro h
    have hmax : max 0 baseTaxableIncome ≤ max 0 (baseTaxableIncome + netRentalResult) :=
      max_le_max le_rfl (by linarith)
    have h1 := mul_le_mul_of_nonneg_right hmax hmt
    have h2 := mul_le_mul_of_nonneg_right hmax hml
    linarith

/-- C9 witness: at a negatively geared example the benefit is non-negative. -/
theorem taxBenefit_sign_witness :
    (0 : ℚ) ≤ 0.37 ∧ (0 : ℚ) ≤ 0.02 ∧ (-20800 : ℚ) ≤ 0 ∧
      0 ≤ (calculateTaxImpactResults 100000 (-20800) (-8300) 0.37 0.02).taxBenefit :=
  ⟨by norm_num, by norm_num, by norm_num,
    (taxBenefit_sign 100000 (-20800) (-8300) 0.37 0.02 (by norm_num)
        (by norm_num)).1 (by norm_num)⟩

/-- C7: calculateMonthlyPIRepayment returns 0 when loanAmount or term is
non-positive, the straight-line loanAmount / (loanTermYears * 12) when the
rate is non-positive (in particular at 480000, rate 0, 30 years), and the
standard annuity formula P r(1+r)^n / ((1+r)^n - 1) with r the monthly rate
and n the number of months otherwise. -/
theorem monthlyPIRepayment_spec (loanAmount annualInterestRate : ℚ) (loanTermYears : ℤ) :
    (loanAmount ≤ 0 ∨ loanTermYears ≤ 0 →
      calculateMonthlyPIRepayment loanAmount annualInterestRate loanTermYears = 0) ∧
    (0 < loanAmount → 0 < loanTermYears → annualInterestRate ≤ 0 →
      calculateMonthlyPIRepayment loanAmount annualInterestRate loanTermYears =
        loanAmount / ((loanTermYears : ℚ) * 12)) ∧
    (0 < loanAmount → 0 < loanTermYears → 0 < annualInterestRate →
      calculateMonthlyPIRepayment loanAmount annualInterestRate loanTermYears =
        loanAmount * (annualInterestRate / 12 *
            (1 + annualInterestRate / 12) ^ (loanTermYears * 12).toNat) /
          ((1 + annualInterestRate / 12) ^ (loanTermYears * 12).toNat - 1)) ∧
    calculateMonthlyPIRepayment 480000 0 30 = 480000 / (30 * 12) := by
  refine ⟨fun h => by rw [calculateMonthlyPIRepayment, if_pos h],
    fun hP hT ha => ?_, fun hP hT ha => ?_, by
      norm_num [calculateMonthlyPIRepayment]⟩
  · rw [calculateMonthlyPIRepayment, if_neg (by push_neg; exact ⟨hP, hT⟩), if_pos ha]
  · rw [calculateMonthlyPIRepayment, if_neg (by push_neg; exact ⟨hP, hT⟩),
      if_neg (not_le.mpr ha)]

/-- C7 witness covering the three conditional branches. -/
theorem monthlyPIRepayment_spec_witness :
    calculateMonthlyPIRepayment (-1) 0.06 30 = 0 ∧
      calculateMonthlyPIRepayment 480000 0 30 = 480000 / ((30 : ℚ) * 12) ∧
      calculateMonthlyPIRepayment 480000 0.06 30 =
        480000 * (0.06 / 12 * (1 + 0.06 / 12) ^ ((30 : ℤ) * 12).toNat) /
          ((1 + 0.06 / 12) ^ ((30 : ℤ) * 12).toNat - 1) :=
  ⟨(monthlyPIRepayment_spec (-1) 0.06 30).1 (Or.inl (by norm_num)),
    (monthlyPIRepayment_spec 480000 0 30).2.1 (by norm_num) (by norm_num) le_rfl,
    (monthlyPIRepayment_spec 480000 0.06 30).2.2.1 (by norm_num) (by norm_num)
      (by norm_num)⟩

/-- C10: calculateAmortizationMilestones returns the empty list whenever the
loan amount, the rate, or the term is non-positive; in particular at rate 0 it
produces no schedule, although calculateMonthlyPIRepayment handles the same
zero-rate input with the straight-line branch. -/
theorem amortizationMilestones_degenerate (loanAmount annualInterestRate : ℚ)
    (loanTermYears : ℤ) :
    (loanAmount ≤ 0 ∨ annualInterestRate ≤ 0 ∨ loanTermYears ≤ 0 →
      calculateAmortizationMilestones loanAmount annualInterestRate loanTermYears = []) ∧
    calculateAmortizationMilestones 480000 0 30 = [] ∧
    calculateMonthlyPIRepayment 480000 0 30 = 480000 / (30 * 12) := by
  refine ⟨fun h => by rw [calculateAmortizationMilestones, if_pos h], ?_, by
    norm_num [calculateMonthlyPIRepayment]⟩
  rw [calculateAmortizationMilestones, if_pos (Or.inr (Or.inl le_rfl))]

/-- C3: for positive loan amount, positive rate and integer loan term at
least 1, calculateAmortizationMilestones returns one milestone per year in
{1,5,10,15,20,25,30} at most the loan term, in ascending year order, each
snapshotted at month year*12 of the month-by-month declining-balance walk;
across the returned list principalPaid is strictly increasing and
remainingBalance is monotonically non-increasing, and every milestone
satisfies principalPaid + remainingBalance = loanAmount exactly. -/
theorem amortizationMilestones_spec (P a : ℚ) (T : ℤ)
    (hP : 0 < P) (ha : 0 < a) (hT : 1 ≤ T) :
    (calculateAmortizationMilestones P a T).map AmortizationMilestone.year =
      [1, 5, 10, 15, 20, 25, 30].filter (fun (y : ℕ) => decide ((y : ℤ) ≤ T)) ∧
    calculateAmortizationMilestones P a T =
      ([1, 5, 10, 15, 20, 25, 30].filter (fun (y : ℕ) => decide ((y : ℤ) ≤ T))).map
        (milestoneAt (a / 12) (calculateMonthlyPIRepayment P a T) P) ∧
    ((calculateAmortizationMilestones P a T).map
        AmortizationMilestone.principalPaid).Pairwise (· < ·) ∧
    ((calculateAmortizationMilestones P a T).map
        AmortizationMilestone.remainingBalance).Pairwise (fun x y => y ≤ x) ∧
    ∀ m ∈ calculateAmortizationMilestones P a T,
      m.principalPaid + m.remainingBalance = P := by
  have hmap := amortization_eq_map P a T hP ha hT
  have hM := monthlyPI_eq_annuity P a T hP ha (by omega)
  have hr : 0 < a / 12 := by positivity
  have hn0 : (T * 12).toNat ≠ 0 := by omega
  have hf1 : 1 < (1 + a / 12) ^ (T * 12).toNat := one_lt_pow₀ (by linarith) hn0
  have hfp : ([1, 5, 10, 15, 20, 25, 30].filter
      (fun (y : ℕ) => decide ((y : ℤ) ≤ T))).Pairwise (· < ·) :=
    List.Pairwise.sublist (List.filter_sublist _) (by decide)
  refine ⟨?_, hmap, ?_, ?_, ?_⟩
  · rw [hmap, List.map_map]
    exact List.map_id _
  · rw [hmap, List.map_map, List.pairwise_map]
    refine List.Pairwise.imp_of_mem (fun {y z} hy hz hyz => ?_) hfp
    simp only [Function.comp, milestoneAt]
    rw [hM, stateAt_principal, stateAt_principal]
    have hlt := balance_strict_anti (a / 12) P ((T * 12).toNat) hr hP hf1
      (show y * 12 < z * 12 by omega)
    linarith
  · rw [hmap, List.map_map, List.pairwise_map]
    refine List.Pairwise.imp_of_mem (fun {y z} hy hz hyz => ?_) hfp
    simp only [Function.comp, milestoneAt]
    rw [hM]
    exact max_le_max le_rfl (balance_strict_anti (a / 12) P ((T * 12).toNat) hr hP
      hf1 (show y * 12 < z * 12 by omega)).le
  · intro m hm
    rw [hmap] at hm
    obtain ⟨y, hy, rfl⟩ := List.mem_map.mp hm
    simp only [milestoneAt]
    rw [hM, stateAt_principal,
      max_eq_right (balance_nonneg (a / 12) P ((T * 12).toNat) hr hP hf1
        (milestone_year_bound T hT hy).2)]
    ring

/-- C3 witness at loanAmount 1000, annual rate 12/10, term 1 year. -/
theorem amortizationMilestones_spec_witness :
    (0 : ℚ) < 1000 ∧ (0 : ℚ) < 12 / 10 ∧ (1 : ℤ) ≤ 1 ∧
      (∀ m ∈ calculateAmortizationMilestones 1000 (12 / 10) 1,
        m.principalPaid + m.remainingBalance = 1000) :=
  ⟨by norm_num, by norm_num, le_refl 1,
    (amortizationMilestones_spec 1000 (12 / 10) 1 (by norm_num) (by norm_num)
        (le_refl 1)).2.2.2.2⟩

/-- C4: for non-negative loan amount, positive rate and positive integer term,
the extraInterestIO field of calculateLoanComparison equals
calculateTotalInterestIO minus calculateTotalInterestPI and is non-negative. -/
theorem extraInterest_nonneg (P a : ℚ) (T : ℤ)
    (hP : 0 ≤ P) (ha : 0 < a) (hT : 0 < T) :
    LoanComparisonResults.extraInterestIO (calculateLoanComparison P a T) =
      calculateTotalInterestIO P a T - calculateTotalInterestPI P a T ∧
    0 ≤ LoanComparisonResults.extraInterestIO (calculateLoanComparison P a T) := by
  refine ⟨rfl, ?_⟩
  show 0 ≤ calculateTotalInterestIO P a T - calculateTotalInterestPI P a T
  rcases eq_or_lt_of_le hP with hP0 | hP0
  · rw [calculateTotalInterestPI, calculateTotalInterestIO,
      calculateMonthlyPIRepayment, if_pos (Or.inl hP0.ge), ← hP0]
    ring_nf
    exact le_refl 0
  · have hM := monthlyPI_eq_annuity P a T hP0 ha hT
    have hr : 0 < a / 12 := by positivity
    have hn0 : (T * 12).toNat ≠ 0 := by omega
    have hf1 : 1 < (1 + a / 12) ^ (T * 12).toNat := one_lt_pow₀ (by linarith) hn0
    have hfne : (1 + a / 12) ^ (T * 12).toNat - 1 ≠ 0 := ne_of_gt (by linarith)
    have hcast : ((T * 12).toNat : ℚ) = (T : ℚ) * 12 := by
      have h := Int.toNat_of_nonneg (show (0 : ℤ) ≤ T * 12 by omega)
      exact_mod_cast congrArg (fun z : ℤ => (z : ℚ)) h
    have hB : 1 + ((T * 12).toNat : ℚ) * (a / 12) ≤ (1 + a / 12) ^ (T * 12).toNat :=
      one_add_mul_le_pow (by linarith) _
    have hTa : ((T * 12).toNat : ℚ) * (a / 12) = (T : ℚ) * a := by
      rw [hcast]; ring
    have key : calculateTotalInterestIO P a T - calculateTotalInterestPI P a T =
        P * ((1 + a / 12) ^ (T * 12).toNat - 1 - (T : ℚ) * a) /
          ((1 + a / 12) ^ (T * 12).toNat - 1) := by
      rw [calculateTotalInterestPI, calculateTotalInterestIO, hM, annuityPayment]
      generalize hx : (1 + a / 12) ^ (T * 12).toNat = x at hfne ⊢
      field_simp
      ring
    rw [key]
    apply div_nonneg _ (by linarith)
    apply mul_nonneg hP0.le
    rw [hTa] at hB
    linarith

/-- C4 witness at loanAmount 480000, rate 6/100, term 30 years. -/
theorem extraInterest_nonneg_witness :
    (0 : ℚ) ≤ 480000 ∧ (0 : ℚ) < 6 / 100 ∧ (0 : ℤ) < 30 ∧
      0 ≤ LoanComparisonResults.extraInterestIO
        (calculateLoanComparison 480000 (6 / 100) 30) :=
  ⟨by norm_num, by norm_num, by norm_num,
    (extraInterest_nonneg 480000 (6 / 100) 30 (by norm_num) (by norm_num)
        (by norm_num)).2⟩

/-- C10 witness: a non-positive rate input produces the empty milestone list. -/
theorem amortizationMilestones_degenerate_witness :
    ((480000 : ℚ) ≤ 0 ∨ (0 : ℚ) ≤ 0 ∨ (30 : ℤ) ≤ 0) ∧
      calculateAmortizationMilestones 480000 0 30 = [] :=
  ⟨Or.inr (Or.inl le_rfl),
    (amortizationMilestones_degenerate 480000 0 30).1 (Or.inr (Or.inl le_rfl))⟩
